import Mathlib

/-!
# Verification of the solid_final governance / access-control core

Shallow embedding of the governance and access-control subsystem of the
repository (src/solid/governanceSolid.ts, src/solid/acp.ts, the doctor gate
in src/App.tsx and the revocation-polling hook in
src/app/hooks/useDoctorRevocationPolling.ts).

Modelling conventions:
* Remote storage is a typed store (containers, grant-state records,
  acknowledgement records, audit events, plain-text resources), each class of
  resource living in its own URL namespace, matching the fixed container
  layout of the governance pod.  A PUT is an unconditional overwrite
  (last-writer-wins), a GET of a missing resource is a 404.
* The external SHA-256 digest capability (crypto.subtle.digest) is threaded
  through the operations as an abstract function `sha : String → String`; the
  code only ever uses it as a deterministic opaque function.
* `crypto.randomUUID()` and `new Date().toISOString()` are effects; each
  operation takes the drawn uuid / timestamp as an explicit argument.
  Freshness of a UUID draw (distinctness from earlier draws) is an
  environmental assumption and appears as an explicit hypothesis where a
  claim relies on it.
* Transport failures make the TypeScript functions reject; the store-level
  model is the success path against a healthy server.  Status-code handling
  (404 / 403 / 412 / 2xx) is modelled explicitly where a claim is about it.
* Identity URIs and client/issuer constants are the literal values of
  src/solid/config.ts.  That file does not define the governance pod base or
  the governance WebID; those two are modelled from the spec as opaque URI
  strings (spec section 3: "an opaque URI string identifying a principal",
  spec section 6: fixed relative paths under a governance root).
-/

namespace SolidFinal

/-! ## HTTP layer -/

/-- A fetch response with a typed body.  `status` is the HTTP status code. -/
structure HttpResponse (β : Type) where
  status : Nat
  body : β
  deriving Repr, DecidableEq

/-- `Response.ok` of the fetch API: status in the inclusive range 200..299. -/
def respOk (status : Nat) : Bool :=
  decide (200 ≤ status) && decide (status ≤ 299)

/-- Outcome of a fetch that may itself reject (network failure): either a
transport error or a response. -/
inductive FetchOutcome (β : Type) where
  | transportError (msg : String)
  | response (r : HttpResponse β)
  deriving Repr, DecidableEq

/-! ## Substring search

`String.prototype.includes` used by the ACR read-back; modelled as a naive
scan over the character list. -/

/-- Does `pat` occur at the head of `l`? -/
def strStartsWith : List Char → List Char → Bool
  | [], _ => true
  | _ :: _, [] => false
  | p :: ps, c :: cs => p == c && strStartsWith ps cs

/-- Does `pat` occur anywhere in `l` (JS `String.prototype.includes`)? -/
def listContainsSub (pat : List Char) : List Char → Bool
  | [] => pat.isEmpty
  | c :: cs => strStartsWith pat (c :: cs) || listContainsSub pat cs

/-- `s.includes pat` on strings. -/
def containsSubstr (s pat : String) : Bool :=
  listContainsSub pat.data s.data

/-! ## Acknowledgement records (governanceSolid.ts, type `Ack`) -/

structure Ack where
  acknowledgedBy : String
  acknowledgedAt : String
  termsVersion : String
  termsHash : String
  deriving Repr, DecidableEq

/-- Body of the acknowledgement-resource fetch as seen by
`hasDoctorAcknowledged`: either it parses as an acknowledgement record, or
`res.json()` / the field access inside the `try` block throws
(malformed body). -/
inductive AckBody where
  | wellFormed (ack : Ack)
  | malformed
  deriving Repr, DecidableEq

/-- `hasDoctorAcknowledged` (governanceSolid.ts lines 481-496), as a function
of the response to the GET of the acknowledgement URL:
404 → false; any other non-2xx → false; 2xx whose body parses → compare
`acknowledgedBy` with the doctor identity; 2xx whose body fails to parse →
the `catch` branch returns `true`. -/
def hasDoctorAcknowledged (resp : HttpResponse AckBody) (doctorWebId : String) : Bool :=
  if resp.status == 404 then false
  else if !respOk resp.status then false
  else
    match resp.body with
    | .wellFormed ack => ack.acknowledgedBy == doctorWebId
    | .malformed => true

/-! ## ACR read-back (acp.ts, `readAccessForFullRecord`) -/

structure AccessFlags where
  doctorCanReadWrite : Bool
  emergencyCanRead : Bool
  deriving Repr, DecidableEq

/-- `readAccessForFullRecord` (acp.ts lines 178-203) as a function of the
outcome of the GET of the ACR document.  A transport error propagates (the
function rejects); a 404 or any other non-ok status yields both flags false;
an ok response is searched for the role block identifiers by substring. -/
def readAccessForFullRecord (out : FetchOutcome String) :
    Except String AccessFlags :=
  match out with
  | .transportError msg => .error msg
  | .response r =>
      if r.status == 404 then .ok ⟨false, false⟩
      else if !respOk r.status then .ok ⟨false, false⟩
      else .ok ⟨containsSubstr r.body "<#doctorAccessControl>",
                containsSubstr r.body "<#emergencyAccessControl>"⟩

/-! ## Governance configuration

The static identity table lives in src/solid/config.ts; the identity
constants below are its literal values.  config.ts does not define the
governance pod base or the governance WebID, so those two are modelled from
the spec as opaque URIs (spec sections 3 and 6). -/

/-- Modelled from the spec: the governance pod root, which config.ts does
not define; an opaque base URI with the fixed governance containers beneath
it (spec section 6). -/
def GOVERNANCE_POD_BASE : String := "https://gov.pod/g/"

/-- Modelled from the spec: the governance authority's WebID, which
config.ts does not define; an opaque URI (spec section 3). -/
def GOVERNANCE_WEBID : String := "https://gov.pod/card"

/-- `DOCTOR_WEBID` from src/solid/config.ts. -/
def DOCTOR_WEBID : String := "http://localhost:3000/doctor/profile/card#me"

/-- `Object.values(PATIENTS).map(p => p.webId)` over the four-patient
`PATIENTS` table of src/solid/config.ts, in declaration order. -/
def PATIENT_WEBIDS : List String :=
  ["http://localhost:3000/patient/profile/card#me",
   "http://localhost:3000/patient2/profile/card#me",
   "http://localhost:3000/patient3/profile/card#me",
   "http://localhost:3000/patient4/profile/card#me"]

/-! The `GOV` URL table of governanceSolid.ts (lines 27-37). -/

namespace GOV

def noticesContainer : String := GOVERNANCE_POD_BASE ++ "notices/"

def termsUrl : String := GOVERNANCE_POD_BASE ++ "notices/terms/v1.txt"

def grantsContainer : String := GOVERNANCE_POD_BASE ++ "grants/"

def grantsStateContainer : String := GOVERNANCE_POD_BASE ++ "grants/state/"

def grantsAcksContainer : String := GOVERNANCE_POD_BASE ++ "grants/acks/"

def auditContainer : String := GOVERNANCE_POD_BASE ++ "audit/"

def auditEventsContainer : String := GOVERNANCE_POD_BASE ++ "audit/events/"

end GOV

def TERMS_VERSION : String := "v1.0"

def TERMS_TEXT : String :=
  "Data Use Notice: You may access this patient record only for the authorised care purpose.\n" ++
  "You must not retain, export, or disclose this data outside authorised systems.\n" ++
  "Access is logged. If access is revoked, you must stop using any retained copies immediately.\n" ++
  "By continuing, you confirm you understand and agree to these terms."

/-! ## Governance data model (governanceSolid.ts types) -/

inductive GrantStatus where
  | active
  | revoked
  deriving Repr, DecidableEq

structure GrantState where
  key : String
  patientWebId : String
  doctorWebId : String
  scopeUrl : String
  status : GrantStatus
  updatedAt : String
  termsVersion : String
  termsUrl : String
  termsHash : String
  grantId : String
  /-- In this design the "active grant URL" is the acknowledgement URL. -/
  activeGrantUrl : String
  deriving Repr, DecidableEq

inductive AuditType where
  | GRANT
  | NOTICE_ACK
  | REVOKE
  | READ_BLOCKED
  deriving Repr, DecidableEq

def AuditType.toStr : AuditType → String
  | .GRANT => "GRANT"
  | .NOTICE_ACK => "NOTICE_ACK"
  | .REVOKE => "REVOKE"
  | .READ_BLOCKED => "READ_BLOCKED"

structure AuditEvent where
  eventId : String
  /-- The `at` timestamp field (named `at'` because `at` is reserved). -/
  at' : String
  type : AuditType
  actorWebId : String
  patientWebId : String
  doctorWebId : String
  scopeUrl : String
  grantId : Option String
  ackUrl : Option String
  termsVersion : Option String
  termsHash : Option String
  eventHash : String
  deriving Repr, DecidableEq

/-- The fields passed to `writeAudit` (`Omit<AuditEvent, eventId|at|eventHash>`). -/
structure AuditInput where
  type : AuditType
  actorWebId : String
  patientWebId : String
  doctorWebId : String
  scopeUrl : String
  grantId : Option String := none
  ackUrl : Option String := none
  termsVersion : Option String := none
  termsHash : Option String := none
  deriving Repr, DecidableEq

/-! ## Canonical JSON (governanceSolid.ts `canonicalJson`, lines 98-101)

`JSON.stringify(obj, Object.keys(obj).sort())` renders the object's own
fields with the keys in sorted order, skipping fields that are `undefined`.
Values here are always strings; the model quotes without escaping, which is
faithful for the escape-free URI / timestamp / version strings involved. -/

def jsonStr (s : String) : String := "\"" ++ s ++ "\""

/-- Lexicographic code-unit comparison (JS default array sort order for the
ASCII keys involved). -/
def strLtB : List Char → List Char → Bool
  | [], [] => false
  | [], _ :: _ => true
  | _ :: _, [] => false
  | a :: as, b :: bs => Nat.blt a.toNat b.toNat || (a == b && strLtB as bs)

def insertPairSorted (p : String × String) : List (String × String) → List (String × String)
  | [] => [p]
  | q :: qs => if strLtB q.1.data p.1.data then q :: insertPairSorted p qs else p :: q :: qs

def sortPairs : List (String × String) → List (String × String)
  | [] => []
  | p :: ps => insertPairSorted p (sortPairs ps)

def canonicalJson (pairs : List (String × String)) : String :=
  "\x7b" ++
    String.intercalate ","
      ((sortPairs pairs).map (fun p => jsonStr p.1 ++ ":" ++ jsonStr p.2)) ++
  "\x7d"

/-- A present optional field as a singleton key/value list; an `undefined`
field is skipped by `JSON.stringify`. -/
def optPair (k : String) : Option String → List (String × String)
  | none => []
  | some v => [(k, v)]

/-- All own fields of an audit event except `eventHash` itself — the object
`base = \x7b eventId, at, ...ev \x7d` that `writeAudit` hashes. -/
def AuditEvent.bodyPairs (e : AuditEvent) : List (String × String) :=
  [("eventId", e.eventId), ("at", e.at'), ("type", e.type.toStr),
   ("actorWebId", e.actorWebId), ("patientWebId", e.patientWebId),
   ("doctorWebId", e.doctorWebId), ("scopeUrl", e.scopeUrl)] ++
  optPair "grantId" e.grantId ++ optPair "ackUrl" e.ackUrl ++
  optPair "termsVersion" e.termsVersion ++ optPair "termsHash" e.termsHash

/-! ## The governance store

A typed view of the remote pod: each class of resource lives in its own
container, so the store keeps one partial map per class, keyed by full URL.
A PUT is an unconditional overwrite; a GET of a missing entry is a 404. -/

structure Store where
  containers : String → Bool
  states : String → Option GrantState
  acks : String → Option Ack
  auditEvents : String → Option AuditEvent
  texts : String → Option String

def emptyStore : Store :=
  { containers := fun _ => false, states := fun _ => none, acks := fun _ => none,
    auditEvents := fun _ => none, texts := fun _ => none }

/-- Overwriting PUT into one of the store's maps. -/
def updFn {α : Type} (m : String → Option α) (url : String) (v : α) :
    String → Option α :=
  fun u => if u = url then some v else m u

/-! ## Governance operations (governanceSolid.ts) -/

/-- `makeKey` (lines 291-295): 20-hex-char prefix of the digest of
`patient::doctor::scope`.  `sha` is the external SHA-256 hex digest
capability. -/
def makeKey (sha : String → String) (patientWebId doctorWebId scopeUrl : String) :
    String :=
  (sha (patientWebId ++ "::" ++ doctorWebId ++ "::" ++ scopeUrl)).take 20

def stateUrlForKey (key : String) : String :=
  GOV.grantsStateContainer ++ key ++ ".json"

def ackUrlFor (key grantId : String) : String :=
  GOV.grantsAcksContainer ++ key ++ "-" ++ grantId ++ ".json"

/-- `writeAudit` (lines 305-316): draw a fresh event id and timestamp
(passed in explicitly), hash the sorted-key JSON of all other fields, store
the event at `audit/events/<eventId>.json`. -/
def writeAudit (sha : String → String) (eventId at' : String) (ev : AuditInput)
    (st : Store) : Store :=
  let base : AuditEvent :=
    { eventId := eventId, at' := at', type := ev.type,
      actorWebId := ev.actorWebId, patientWebId := ev.patientWebId,
      doctorWebId := ev.doctorWebId, scopeUrl := ev.scopeUrl,
      grantId := ev.grantId, ackUrl := ev.ackUrl,
      termsVersion := ev.termsVersion, termsHash := ev.termsHash,
      eventHash := "" }
  let eventHash := sha (canonicalJson base.bodyPairs)
  let full := { base with eventHash := eventHash }
  { st with
      auditEvents :=
        updFn st.auditEvents (GOV.auditEventsContainer ++ eventId ++ ".json") full }

/-- `createGrantAndActivate` (lines 403-443).  `grantId`, `eventId`,
`updatedAt` and `evAt` are the uuid / timestamp draws.  Returns the updated
store together with `\x7b grantId, grantUrl \x7d` (the grant URL is the
acknowledgement URL). -/
def createGrantAndActivate (sha : String → String)
    (grantId eventId updatedAt evAt : String)
    (patientWebId doctorWebId scopeUrl : String) (st : Store) :
    Store × String × String :=
  let key := makeKey sha patientWebId doctorWebId scopeUrl
  let termsHash := sha (TERMS_VERSION ++ "::" ++ TERMS_TEXT)
  let ackUrl := ackUrlFor key grantId
  let state : GrantState :=
    { key := key, patientWebId := patientWebId, doctorWebId := doctorWebId,
      scopeUrl := scopeUrl, status := .active, updatedAt := updatedAt,
      termsVersion := TERMS_VERSION, termsUrl := GOV.termsUrl,
      termsHash := termsHash, grantId := grantId, activeGrantUrl := ackUrl }
  let st1 := { st with states := updFn st.states (stateUrlForKey key) state }
  let st2 := writeAudit sha eventId evAt
    { type := .GRANT, actorWebId := patientWebId, patientWebId := patientWebId,
      doctorWebId := doctorWebId, scopeUrl := scopeUrl,
      grantId := some grantId, ackUrl := some ackUrl,
      termsVersion := some TERMS_VERSION, termsHash := some termsHash } st1
  (st2, grantId, ackUrl)

/-- `revokeActiveGrant` (lines 445-471): look up the state by key; no-op when
absent; otherwise write back the state with status flipped to revoked and a
fresh timestamp, and append a REVOKE audit event. -/
def revokeActiveGrant (sha : String → String) (eventId evAt updatedAt : String)
    (patientWebId doctorWebId scopeUrl : String) (st : Store) : Store :=
  let key := makeKey sha patientWebId doctorWebId scopeUrl
  let url := stateUrlForKey key
  match st.states url with
  | none => st
  | some state =>
      let next : GrantState := { state with status := .revoked, updatedAt := updatedAt }
      let st1 := { st with states := updFn st.states url next }
      writeAudit sha eventId evAt
        { type := .REVOKE, actorWebId := patientWebId,
          patientWebId := patientWebId, doctorWebId := doctorWebId,
          scopeUrl := scopeUrl, grantId := some state.grantId,
          ackUrl := some state.activeGrantUrl,
          termsVersion := some state.termsVersion,
          termsHash := some state.termsHash } st1

/-- `getActiveGrantState` (lines 473-479): pure read of the state record at
the deterministic key (404 reads back as `none`). -/
def getActiveGrantState (sha : String → String)
    (patientWebId doctorWebId scopeUrl : String) (st : Store) :
    Option GrantState :=
  st.states (stateUrlForKey (makeKey sha patientWebId doctorWebId scopeUrl))

/-- `acknowledgeGrant` (lines 498-528): write the acknowledgement record at
the grant URL and append a NOTICE_ACK audit event.  It never reads the grant
state and has no precondition on it. -/
def acknowledgeGrant (sha : String → String)
    (eventId evAt acknowledgedAt : String)
    (grantUrl doctorWebId patientWebId scopeUrl termsVersion termsHash : String)
    (st : Store) : Store :=
  let ack : Ack :=
    { acknowledgedBy := doctorWebId, acknowledgedAt := acknowledgedAt,
      termsVersion := termsVersion, termsHash := termsHash }
  let st1 := { st with acks := updFn st.acks grantUrl ack }
  writeAudit sha eventId evAt
    { type := .NOTICE_ACK, actorWebId := doctorWebId,
      patientWebId := patientWebId, doctorWebId := doctorWebId,
      scopeUrl := scopeUrl, ackUrl := some grantUrl,
      termsVersion := some termsVersion, termsHash := some termsHash } st1

/-! ## The doctor gate (App.tsx `doctorGateOrThrow`, lines 231-259) -/

/-- The governance server's response to a GET of an acknowledgement URL:
404 when the resource is absent, 200 with a well-formed JSON body when an
acknowledgement record is stored there. -/
def ackFetch (st : Store) (url : String) : HttpResponse AckBody :=
  match st.acks url with
  | none => ⟨404, .malformed⟩
  | some a => ⟨200, .wellFormed a⟩

/-- Outcome of the gate: return normally, or throw one of the two
governance failures. -/
inductive GateResult where
  | pass
  | noActiveGrant
  | legalNoticeRequired
  deriving Repr, DecidableEq

/-- `doctorGateOrThrow`: no active grant (absent record, non-active status,
or empty/falsy grant URL) throws `NoActiveGrant`; an acknowledgement by the
doctor passes; otherwise the terms are surfaced and `LegalNoticeRequired` is
thrown. -/
def doctorGateOrThrow (sha : String → String) (doctorWebId : String)
    (patientWebId scopeUrl : String) (st : Store) : GateResult :=
  match getActiveGrantState sha patientWebId doctorWebId scopeUrl st with
  | none => .noActiveGrant
  | some g =>
      if g.status ≠ GrantStatus.active then .noActiveGrant
      else if g.activeGrantUrl = "" then .noActiveGrant
      else if hasDoctorAcknowledged (ackFetch st g.activeGrantUrl) doctorWebId then .pass
      else .legalNoticeRequired

/-- The grant-state record that `createGrantAndActivate` writes, named so
theorems can exhibit it as the state read back by `getActiveGrantState`. -/
def createdGrantState (sha : String → String) (grantId updatedAt : String)
    (patientWebId doctorWebId scopeUrl : String) : GrantState :=
  { key := makeKey sha patientWebId doctorWebId scopeUrl,
    patientWebId := patientWebId, doctorWebId := doctorWebId,
    scopeUrl := scopeUrl, status := .active, updatedAt := updatedAt,
    termsVersion := TERMS_VERSION, termsUrl := GOV.termsUrl,
    termsHash := sha (TERMS_VERSION ++ "::" ++ TERMS_TEXT),
    grantId := grantId,
    activeGrantUrl := ackUrlFor (makeKey sha patientWebId doctorWebId scopeUrl) grantId }

/-- Exemplar grant state used by the C6 witness. -/
def gsExample : GrantState :=
  { key := "p::d::s", patientWebId := "p", doctorWebId := "d", scopeUrl := "s",
    status := .active, updatedAt := "t0", termsVersion := TERMS_VERSION,
    termsUrl := GOV.termsUrl, termsHash := "th", grantId := "g1",
    activeGrantUrl := ackUrlFor "p::d::s" "g1" }

/-- Exemplar store holding `gsExample` at the key of the triple
`("p", "d", "s")` under the identity digest. -/
def storeWithState : Store :=
  { emptyStore with
      states := updFn emptyStore.states
        (stateUrlForKey (makeKey (fun s => s) "p" "d" "s")) gsExample }


/-! ## Roles and the revocation poller

The polling appears twice in the repository: an inline effect in App.tsx
(2.5 s interval) and the extracted hook useDoctorRevocationPolling.ts (15 s
interval) whose argument record additionally requires `hasActiveData`. -/

inductive Role where
  | patient
  | doctor
  | nurse
  | emergency
  | pharmacy
  | governance
  deriving Repr, DecidableEq

/-- The UI context the polling effects read: session flag, role, selected
patient, the derived health-container URL, and whether a patient-data load
has succeeded at least once in this session. -/
structure DoctorPollContext where
  loggedIn : Bool
  role : Role
  effectivePatientWebId : Option String
  patientHealthContainerUrl : Option String
  dataLoadedOnce : Bool
  deriving Repr, DecidableEq

/-- Guard of the inline revocation-polling effect in App.tsx (lines
421-424): when it holds the effect registers the interval timer and issues
an immediate grant-state check.  It does not consult whether data has been
loaded. -/
def appRevocationPollerStarts (c : DoctorPollContext) : Bool :=
  c.loggedIn && c.role == .doctor && c.effectivePatientWebId.isSome &&
    c.patientHealthContainerUrl.isSome

/-- Guard of `useDoctorRevocationPolling` (lines 27-30): the same conditions
plus `hasActiveData`, the hook's required argument ("skip until the doctor
has confirmed access"). -/
def hookRevocationPollerStarts (c : DoctorPollContext) (hasActiveData : Bool) : Bool :=
  c.loggedIn && c.role == .doctor && c.effectivePatientWebId.isSome &&
    c.patientHealthContainerUrl.isSome && hasActiveData

/-! ## Container creation, text/ACR writes and bootstrap
(governanceSolid.ts lines 103-140, 166-289, 321-401) -/

/-- Outcome of `ensureContainer`'s status handling as a function of the
status of the initial GET and, when that GET is a 404, of the creating PUT:
an existing container (2xx GET) succeeds silently; a non-404 GET failure
raises; after a 404 a 2xx or 412 (concurrent creation) PUT succeeds and
anything else raises. -/
def ensureContainerOutcome (getStatus putStatus : Nat) : Except String Unit :=
  if respOk getStatus then .ok ()
  else if getStatus != 404 then .error "cannot access container"
  else if respOk putStatus || putStatus == 412 then .ok ()
  else .error "failed to create container"

/-- `ensureContainer` against the store: a present container answers the GET
with 2xx and the store is untouched; an absent one (404) is created by the
PUT. -/
def ensureContainer (st : Store) (containerUrl : String) : Store :=
  if st.containers containerUrl then st
  else { st with
          containers := fun u => if u = containerUrl then true else st.containers u }

/-- `putText`: unconditional overwrite of a plain-text resource. -/
def putText (st : Store) (url text : String) : Store :=
  { st with texts := updFn st.texts url text }

/-- `putAcr`: PUT the turtle at the resource's `.acr` location. -/
def putAcr (st : Store) (resourceUrl turtle : String) : Store :=
  { st with texts := updFn st.texts (resourceUrl ++ ".acr") turtle }

/-- Whitespace trim over the character list (JS `String.prototype.trim`),
used instead of `String.trim` so that it evaluates by structural
recursion. -/
def strTrim (s : String) : String :=
  ⟨((s.data.dropWhile Char.isWhitespace).reverse.dropWhile Char.isWhitespace).reverse⟩

/-- `matcherAgentsBlock` (governanceSolid.ts lines 166-172). -/
def matcherAgentsBlock (agentWebIds : List String) : String :=
  strTrim ("\n    acp:anyOf [\n      a acp:Matcher;\n      acp:agent " ++
    String.intercalate ", " (agentWebIds.map (fun w => "<" ++ w ++ ">")) ++
    ";\n    ];")

/-- `buildContainerAcr` (governanceSolid.ts lines 174-233). -/
def buildContainerAcr (resourceUrl ownerWebId : String)
    (readers writers : List String) : String :=
  let accessControls := ["<#owner>"] ++
    (if readers.isEmpty then [] else ["<#readers>"]) ++
    (if writers.isEmpty then [] else ["<#writers>"])
  let acJoin := String.intercalate ", " accessControls
  strTrim
    ("\n@prefix acp: <http://www.w3.org/ns/solid/acp#>.\n@prefix acl: <http://www.w3.org/ns/auth/acl#>.\n\n<#root>\n  a acp:AccessControlResource ;\n  acp:resource <" ++
      resourceUrl ++ "> ;\n  acp:accessControl " ++ acJoin ++
      " ;\n  acp:memberAccessControl " ++ acJoin ++ " .\n\n<#owner>\n  a acp:AccessControl ;\n  acp:apply [\n    a acp:Policy ;\n    acp:allow acl:Read, acl:Write, acl:Append, acl:Control ;\n" ++
      matcherAgentsBlock [ownerWebId] ++ "\n  ] .\n\n" ++
      (if readers.isEmpty then "" else
        "\n<#readers>\n  a acp:AccessControl ;\n  acp:apply [\n    a acp:Policy ;\n    acp:allow acl:Read ;\n" ++
          matcherAgentsBlock readers ++ "\n  ] .\n") ++
      "\n\n" ++
      (if writers.isEmpty then "" else
        "\n<#writers>\n  a acp:AccessControl ;\n  acp:apply [\n    a acp:Policy ;\n    acp:allow acl:Write, acl:Append ;\n" ++
          matcherAgentsBlock writers ++ "\n  ] .\n") ++
      "\n")

/-- `buildResourceAcr` (governanceSolid.ts lines 235-275). -/
def buildResourceAcr (resourceUrl ownerWebId : String)
    (readers : List String) : String :=
  let accessControls := ["<#owner>"] ++
    (if readers.isEmpty then [] else ["<#readers>"])
  let acJoin := String.intercalate ", " accessControls
  strTrim
    ("\n@prefix acp: <http://www.w3.org/ns/solid/acp#>.\n@prefix acl: <http://www.w3.org/ns/auth/acl#>.\n\n<#root>\n  a acp:AccessControlResource ;\n  acp:resource <" ++
      resourceUrl ++ "> ;\n  acp:accessControl " ++ acJoin ++
      " .\n\n<#owner>\n  a acp:AccessControl ;\n  acp:apply [\n    a acp:Policy ;\n    acp:allow acl:Read, acl:Write, acl:Append, acl:Control ;\n" ++
      matcherAgentsBlock [ownerWebId] ++ "\n  ] .\n\n" ++
      (if readers.isEmpty then "" else
        "\n<#readers>\n  a acp:AccessControl ;\n  acp:apply [\n    a acp:Policy ;\n    acp:allow acl:Read ;\n" ++
          matcherAgentsBlock readers ++ "\n  ] .\n") ++
      "\n")

/-- `bootstrapGovernanceStore` (lines 321-401): idempotently ensure the six
governance containers, write the terms text, write the five access-control
documents, then append one bootstrap audit event (fresh `eventId`). -/
def bootstrapGovernanceStore (sha : String → String) (eventId evAt : String)
    (st : Store) : Store :=
  let st1 := ensureContainer st GOV.noticesContainer
  let st2 := ensureContainer st1 GOV.grantsContainer
  let st3 := ensureContainer st2 GOV.grantsStateContainer
  let st4 := ensureContainer st3 GOV.grantsAcksContainer
  let st5 := ensureContainer st4 GOV.auditContainer
  let st6 := ensureContainer st5 GOV.auditEventsContainer
  let st7 := putText st6 GOV.termsUrl TERMS_TEXT
  let actors := DOCTOR_WEBID :: PATIENT_WEBIDS
  let st8 := putAcr st7 GOV.noticesContainer
    (buildContainerAcr GOV.noticesContainer GOVERNANCE_WEBID actors [])
  let st9 := putAcr st8 GOV.termsUrl
    (buildResourceAcr GOV.termsUrl GOVERNANCE_WEBID actors)
  let st10 := putAcr st9 GOV.grantsStateContainer
    (buildContainerAcr GOV.grantsStateContainer GOVERNANCE_WEBID actors PATIENT_WEBIDS)
  let st11 := putAcr st10 GOV.grantsAcksContainer
    (buildContainerAcr GOV.grantsAcksContainer GOVERNANCE_WEBID actors [DOCTOR_WEBID])
  let st12 := putAcr st11 GOV.auditEventsContainer
    (buildContainerAcr GOV.auditEventsContainer GOVERNANCE_WEBID [] actors)
  writeAudit sha eventId evAt
    { type := .GRANT, actorWebId := GOVERNANCE_WEBID,
      patientWebId := GOVERNANCE_WEBID, doctorWebId := DOCTOR_WEBID,
      scopeUrl := GOV.auditEventsContainer,
      termsVersion := some TERMS_VERSION,
      termsHash := some (sha (TERMS_VERSION ++ "::" ++ TERMS_TEXT)) } st12


/-! ## Patient access-control documents (acp.ts) -/

/-- `SOLID_ISSUER` from src/solid/config.ts. -/
def SOLID_ISSUER : String := "http://localhost:3000/"

/-- `CLIENT_ID` from src/solid/config.ts. -/
def CLIENT_ID : String := "http://localhost:5173/clientid.json"

/-- `EMERGENCY_WEBID` from src/solid/config.ts. -/
def EMERGENCY_WEBID : String := "http://localhost:3000/emergency/profile/card#me"

/-- `PHARMACY_WEBID` from src/solid/config.ts. -/
def PHARMACY_WEBID : String := "http://localhost:3000/pharmacy/profile/card#me"

/-- `NURSE_WEBID` from src/solid/config.ts. -/
def NURSE_WEBID : String := "http://localhost:3000/nurse/profile/card#me"

/-- `s.endsWith suffix` by structural recursion on the reversed character
lists. -/
def strEndsWith (s suffix : String) : Bool :=
  strStartsWith suffix.data.reverse s.data.reverse

/-- The options record of `applyAcpForResource` / `buildAcrTurtle`
(acp.ts lines 5-20). -/
structure AccessOptions where
  resourceUrl : String
  patientWebId : String
  doctorWebId : String
  emergencyWebId : String
  pharmacyWebId : String
  nurseWebId : String
  doctorCanReadWrite : Bool
  emergencyCanRead : Bool
  pharmacyCanRead : Bool
  nurseCanReadWrite : Bool
  restrictToClientAndIssuer : Bool := true
  deriving Repr, DecidableEq

/-- `matcherBlock` (acp.ts lines 22-40): open mode lists the bare agent;
restricted mode (the default) additionally pins the client application and
the issuer origin (normalised to a trailing slash). -/
def matcherBlock (agentWebId : String) (restrict : Bool) : String :=
  if !restrict then
    strTrim ("\n    acp:anyOf [\n      a acp:Matcher;\n      acp:agent <" ++
      agentWebId ++ ">;\n    ];")
  else
    let issuer := if strEndsWith SOLID_ISSUER "/" then SOLID_ISSUER
      else SOLID_ISSUER ++ "/"
    strTrim ("\n    acp:anyOf [\n      a acp:Matcher;\n      acp:agent <" ++
      agentWebId ++ ">;\n      acp:client <" ++ CLIENT_ID ++
      ">;\n      acp:issuer <" ++ issuer ++ ">;\n    ];")

/-- `buildAcrTurtle` (acp.ts lines 42-147): the access-control document for
the health container and its two sibling resources, with one role block per
enabled flag. -/
def buildAcrTurtle (opts : AccessOptions) : String :=
  let accessControls := ["<#ownerAccessControl>"] ++
    (if opts.doctorCanReadWrite then ["<#doctorAccessControl>"] else []) ++
    (if opts.emergencyCanRead then ["<#emergencyAccessControl>"] else []) ++
    (if opts.pharmacyCanRead then ["<#pharmacyAccessControl>"] else []) ++
    (if opts.nurseCanReadWrite then ["<#nurseAccessControl>"] else [])
  let acJoin := String.intercalate ", " accessControls
  strTrim
    ("\n@prefix acp: <http://www.w3.org/ns/solid/acp#>.\n@prefix acl: <http://www.w3.org/ns/auth/acl#>.\n\n<#root>\n  a acp:AccessControlResource;\n  acp:resource <" ++
      opts.resourceUrl ++ ">;\n  acp:accessControl " ++ acJoin ++
      ";\n  acp:memberAccessControl " ++ acJoin ++
      " .\n\n<#filesJsonACR>\n  a acp:AccessControlResource;\n  acp:resource <" ++
      opts.resourceUrl ++ "files.json>;\n  acp:accessControl " ++ acJoin ++
      " .\n\n<#fullRecordJsonACR>\n  a acp:AccessControlResource;\n  acp:resource <" ++
      opts.resourceUrl ++ "full-record.json>;\n  acp:accessControl " ++ acJoin ++
      " .\n\n<#ownerAccessControl>\n  a acp:AccessControl;\n  acp:apply [\n    a acp:Policy;\n    acp:allow acl:Read, acl:Write, acl:Append, acl:Control;\n" ++
      matcherBlock opts.patientWebId opts.restrictToClientAndIssuer ++
      "\n  ] .\n\n" ++
      (if opts.doctorCanReadWrite then
        "\n<#doctorAccessControl>\n  a acp:AccessControl;\n  acp:apply [\n    a acp:Policy;\n    acp:allow acl:Read, acl:Write;\n" ++
          matcherBlock opts.doctorWebId opts.restrictToClientAndIssuer ++
          "\n  ] .\n"
        else "") ++
      "\n\n" ++
      (if opts.emergencyCanRead then
        "\n<#emergencyAccessControl>\n  a acp:AccessControl;\n  acp:apply [\n    a acp:Policy;\n    acp:allow acl:Read;\n" ++
          matcherBlock opts.emergencyWebId opts.restrictToClientAndIssuer ++
          "\n  ] .\n"
        else "") ++
      "\n\n" ++
      (if opts.pharmacyCanRead then
        "\n<#pharmacyAccessControl>\n  a acp:AccessControl;\n  acp:apply [\n    a acp:Policy;\n    acp:allow acl:Read;\n" ++
          matcherBlock opts.pharmacyWebId opts.restrictToClientAndIssuer ++
          "\n  ] .\n"
        else "") ++
      "\n\n" ++
      (if opts.nurseCanReadWrite then
        "\n<#nurseAccessControl>\n  a acp:AccessControl;\n  acp:apply [\n    a acp:Policy;\n    acp:allow acl:Read, acl:Write;\n" ++
          matcherBlock opts.nurseWebId opts.restrictToClientAndIssuer ++
          "\n  ] .\n"
        else "") ++
      "\n")

/-- The exemplar option set for the round-trip theorem: the config.ts role
identities and the first patient's health container
(`new URL("health/", PATIENTS.patient1.podBaseUrl)`), with the role flags
variable. -/
def acrOptsExemplar (dflag eflag pflag nflag : Bool) : AccessOptions :=
  { resourceUrl := "http://localhost:3000/patient/health/",
    patientWebId := "http://localhost:3000/patient/profile/card#me",
    doctorWebId := DOCTOR_WEBID, emergencyWebId := EMERGENCY_WEBID,
    pharmacyWebId := PHARMACY_WEBID, nurseWebId := NURSE_WEBID,
    doctorCanReadWrite := dflag, emergencyCanRead := eflag,
    pharmacyCanRead := pflag, nurseCanReadWrite := nflag }

/-- An adversarial option set: the resource URL itself contains the
emergency role-block identifier while `emergencyCanRead` is off. -/
def acrCexOpts : AccessOptions :=
  { acrOptsExemplar true false false false with
      resourceUrl := "http://localhost:3000/<#emergencyAccessControl>/" }



end SolidFinal

namespace SolidFinal

/-! ## Theorems for claims C3 and C4 -/

/-- **C3.** `hasDoctorAcknowledged` returns `true` — the doctor is treated as
already acknowledged and the gate will pass without re-displaying the notice
— whenever the acknowledgement fetch returns a 2xx status but the body fails
to parse, for every doctor identity argument. -/
theorem c3_ack_parse_failure_fail_open
    (resp : HttpResponse AckBody) (doctorWebId : String)
    (hok : respOk resp.status = true) (hbody : resp.body = .malformed) :
    hasDoctorAcknowledged resp doctorWebId = true := by
  unfold hasDoctorAcknowledged
  have h404 : (resp.status == 404) = false := by
    rcases resp with ⟨s, b⟩
    simp only [respOk, Bool.and_eq_true, decide_eq_true_eq] at hok
    simpa using by omega
  rw [h404, if_neg (by simp), hok]
  simp [hbody]

/-- Witness for C3: a 200 response with an unparseable body is treated as
acknowledged for an arbitrary doctor identity. -/
theorem c3_ack_parse_failure_fail_open_witness :
    hasDoctorAcknowledged ⟨200, .malformed⟩ "https://pod.example/doctor" = true :=
  c3_ack_parse_failure_fail_open ⟨200, .malformed⟩ "https://pod.example/doctor"
    (by decide) rfl

/-- **C4.** `readAccessForFullRecord` is fail-closed: on every non-2xx
response (404, 403, or any other status, with any body) it returns both flags
false, and on a transport failure it propagates the error — so in no error
case is either role reported as granted. -/
theorem c4_read_access_fail_closed :
    (∀ r : HttpResponse String, respOk r.status = false →
        readAccessForFullRecord (.response r) = .ok ⟨false, false⟩) ∧
    (∀ msg : String,
        readAccessForFullRecord (.transportError msg) = .error msg) := by
  constructor
  · intro r hr
    simp only [readAccessForFullRecord]
    by_cases h404 : (r.status == 404) = true
    · rw [if_pos h404]
    · rw [if_neg (by simpa using h404), hr]
      simp
  · intro msg
    rfl

/-- Witness for C4: a 403 response whose body even contains both role block
identifiers still reads back as not-granted, and a transport failure yields
an error, not a grant. -/
theorem c4_read_access_fail_closed_witness :
    readAccessForFullRecord
        (.response ⟨403, "<#doctorAccessControl> <#emergencyAccessControl>"⟩) =
      .ok ⟨false, false⟩ ∧
    readAccessForFullRecord (.transportError "network down") =
      .error "network down" :=
  ⟨c4_read_access_fail_closed.1
      ⟨403, "<#doctorAccessControl> <#emergencyAccessControl>"⟩ (by decide),
   c4_read_access_fail_closed.2 "network down"⟩

/-! ## Shared helper lemmas about the store -/

theorem updFn_same {α : Type} (m : String → Option α) (url : String) (v : α) :
    updFn m url v url = some v := by
  simp [updFn]

theorem updFn_ne {α : Type} (m : String → Option α) (url : String) (v : α)
    (u : String) (h : u ≠ url) : updFn m url v u = m u := by
  simp [updFn, h]

theorem ackUrlFor_ne_empty (k g : String) : ackUrlFor k g ≠ "" := by
  intro h
  have hl := congrArg String.length h
  simp only [ackUrlFor, String.length_append] at hl
  have h1 : 0 < GOV.grantsAcksContainer.length := by decide
  have h2 : String.length "" = 0 := by decide
  omega

theorem ackUrlFor_inj_grantId {k g g' : String}
    (h : ackUrlFor k g = ackUrlFor k g') : g = g' := by
  have hd := congrArg String.data h
  simp only [ackUrlFor, String.data_append, List.append_assoc] at hd
  have h1 := List.append_cancel_left hd
  have h2 := List.append_cancel_left h1
  have h3 := List.append_cancel_left h2
  exact String.ext (List.append_cancel_right h3)

/-! ## Theorems for claims C8, C10, C6 -/

/-- **C8.** Every audit event written by `writeAudit` stores an `eventHash`
equal to the digest of the sorted-key JSON encoding of all its other fields
(event id and timestamp included, the hash itself excluded), so recomputing
the hash over the stored event's own fields reproduces the stored hash. -/
theorem c8_audit_hash_self_consistent (sha : String → String)
    (eventId at' : String) (ev : AuditInput) (st : Store) :
    ∃ e : AuditEvent,
      (writeAudit sha eventId at' ev st).auditEvents
          (GOV.auditEventsContainer ++ eventId ++ ".json") = some e ∧
      e.eventHash = sha (canonicalJson e.bodyPairs) ∧
      e.eventId = eventId ∧ e.at' = at' := by
  refine ⟨_, updFn_same _ _ _, ?_, rfl, rfl⟩
  rfl

/-- **C10.** `acknowledgeGrant` has no precondition on the grant state: for
every input store — in particular one where the state record at the key is
revoked, or absent entirely — it writes the acknowledgement record at the
grant URL, touches no other acknowledgement and no grant state, and appends
a NOTICE_ACK audit event.  (In the implementation it can only fail on a
transport/write failure, which the store model treats as outside the
operation.) -/
theorem c10_acknowledge_unconditional (sha : String → String)
    (eventId evAt acknowledgedAt grantUrl doctorWebId patientWebId scopeUrl
      termsVersion termsHash : String) (st : Store) :
    (acknowledgeGrant sha eventId evAt acknowledgedAt grantUrl doctorWebId
        patientWebId scopeUrl termsVersion termsHash st).acks grantUrl =
      some ⟨doctorWebId, acknowledgedAt, termsVersion, termsHash⟩ ∧
    (∀ u, u ≠ grantUrl →
      (acknowledgeGrant sha eventId evAt acknowledgedAt grantUrl doctorWebId
          patientWebId scopeUrl termsVersion termsHash st).acks u = st.acks u) ∧
    (acknowledgeGrant sha eventId evAt acknowledgedAt grantUrl doctorWebId
        patientWebId scopeUrl termsVersion termsHash st).states = st.states ∧
    (∃ e : AuditEvent,
      (acknowledgeGrant sha eventId evAt acknowledgedAt grantUrl doctorWebId
          patientWebId scopeUrl termsVersion termsHash st).auditEvents
        (GOV.auditEventsContainer ++ eventId ++ ".json") = some e ∧
      e.type = .NOTICE_ACK) := by
  refine ⟨updFn_same _ _ _, ?_, rfl, ⟨_, updFn_same _ _ _, rfl⟩⟩
  intro u hu
  exact updFn_ne _ _ _ _ hu

/-- Witness for C10: acknowledging against the empty store (no grant state
record at all) still writes the acknowledgement and leaves other
acknowledgement URLs untouched. -/
theorem c10_acknowledge_unconditional_witness :
    (acknowledgeGrant (fun s => s) "ev1" "t1" "t2" "https://g/acks/k-g1.json"
        "doc" "pat" "scope" "v1.0" "th" emptyStore).acks "https://g/acks/k-g1.json" =
      some ⟨"doc", "t2", "v1.0", "th"⟩ ∧
    (acknowledgeGrant (fun s => s) "ev1" "t1" "t2" "https://g/acks/k-g1.json"
        "doc" "pat" "scope" "v1.0" "th" emptyStore).acks "https://g/acks/other.json" =
      emptyStore.acks "https://g/acks/other.json" := by
  have h := c10_acknowledge_unconditional (fun s => s) "ev1" "t1" "t2"
    "https://g/acks/k-g1.json" "doc" "pat" "scope" "v1.0" "th" emptyStore
  exact ⟨h.1, h.2.1 "https://g/acks/other.json" (by decide)⟩

/-- **C6.** `revokeActiveGrant` is a no-op when no state record exists at the
key; when a record exists, the written replacement differs from the prior
state only in `status` (now revoked) and `updatedAt`, no other grant-state
entry changes, and the acknowledgement resources (as well as the text
resources and containers) are untouched. -/
theorem c6_revoke_frame (sha : String → String)
    (eventId evAt updatedAt patientWebId doctorWebId scopeUrl : String)
    (st : Store) :
    (st.states (stateUrlForKey (makeKey sha patientWebId doctorWebId scopeUrl)) = none →
      revokeActiveGrant sha eventId evAt updatedAt patientWebId doctorWebId scopeUrl st = st) ∧
    (∀ gs : GrantState,
      st.states (stateUrlForKey (makeKey sha patientWebId doctorWebId scopeUrl)) = some gs →
      (revokeActiveGrant sha eventId evAt updatedAt patientWebId doctorWebId scopeUrl st).states
          (stateUrlForKey (makeKey sha patientWebId doctorWebId scopeUrl)) =
        some { gs with status := .revoked, updatedAt := updatedAt } ∧
      (∀ u, u ≠ stateUrlForKey (makeKey sha patientWebId doctorWebId scopeUrl) →
        (revokeActiveGrant sha eventId evAt updatedAt patientWebId doctorWebId scopeUrl st).states u =
          st.states u) ∧
      (revokeActiveGrant sha eventId evAt updatedAt patientWebId doctorWebId scopeUrl st).acks =
        st.acks ∧
      (revokeActiveGrant sha eventId evAt updatedAt patientWebId doctorWebId scopeUrl st).texts =
        st.texts ∧
      (revokeActiveGrant sha eventId evAt updatedAt patientWebId doctorWebId scopeUrl st).containers =
        st.containers) := by
  constructor
  · intro h
    simp only [revokeActiveGrant]
    rw [h]
  · intro gs h
    simp only [revokeActiveGrant]
    rw [h]
    simp only [writeAudit]
    exact ⟨updFn_same _ _ _, fun u hu => updFn_ne _ _ _ _ hu, trivial, trivial, trivial⟩

/-! ## Shared evaluation lemmas for the operations and the gate

All of these are stated over a variable store, so rewriting with them never
forces reduction inside the large composite store terms of the claim
theorems. -/

theorem getActive_eq (sha : String → String) (p d s : String) (st : Store) :
    getActiveGrantState sha p d s st =
      st.states (stateUrlForKey (makeKey sha p d s)) := rfl

theorem writeAudit_states (sha : String → String) (e a : String)
    (ev : AuditInput) (st : Store) :
    (writeAudit sha e a ev st).states = st.states := rfl

theorem ack_states (sha : String → String) (e a ak url doc pat sc tv th : String)
    (st : Store) :
    (acknowledgeGrant sha e a ak url doc pat sc tv th st).states = st.states := rfl

theorem create_acks (sha : String → String) (g1 e1 t1 a1 p d s : String)
    (st0 : Store) :
    (createGrantAndActivate sha g1 e1 t1 a1 p d s st0).1.acks = st0.acks := by
  simp only [createGrantAndActivate, writeAudit]

theorem create_grantUrl (sha : String → String) (g1 e1 t1 a1 p d s : String)
    (st0 : Store) :
    (createGrantAndActivate sha g1 e1 t1 a1 p d s st0).2.2 =
      ackUrlFor (makeKey sha p d s) g1 := by
  simp only [createGrantAndActivate]

theorem createdGrantState_activeGrantUrl (sha : String → String)
    (g t p d s : String) :
    (createdGrantState sha g t p d s).activeGrantUrl =
      ackUrlFor (makeKey sha p d s) g := rfl

theorem writeAudit_acks (sha : String → String) (e a : String)
    (ev : AuditInput) (st : Store) :
    (writeAudit sha e a ev st).acks = st.acks := rfl


theorem create_states_lookup (sha : String → String)
    (g1 e1 t1 a1 p d s : String) (st0 : Store) :
    (createGrantAndActivate sha g1 e1 t1 a1 p d s st0).1.states
        (stateUrlForKey (makeKey sha p d s)) =
      some (createdGrantState sha g1 t1 p d s) := by
  simp only [createGrantAndActivate, writeAudit, createdGrantState]
  exact updFn_same _ _ _

theorem ack_acks_lookup (sha : String → String)
    (e a ak url doc pat sc tv th : String) (st : Store) :
    (acknowledgeGrant sha e a ak url doc pat sc tv th st).acks url =
      some ⟨doc, ak, tv, th⟩ := by
  simp only [acknowledgeGrant, writeAudit]
  exact updFn_same _ _ _

theorem ack_acks_other (sha : String → String)
    (e a ak url doc pat sc tv th : String) (st : Store) (u : String)
    (h : u ≠ url) :
    (acknowledgeGrant sha e a ak url doc pat sc tv th st).acks u = st.acks u := by
  simp only [acknowledgeGrant, writeAudit]
  exact updFn_ne _ _ _ _ h

theorem revoke_eq_of_some (sha : String → String) (e a t p d s : String)
    (st : Store) (gs : GrantState)
    (h : st.states (stateUrlForKey (makeKey sha p d s)) = some gs) :
    revokeActiveGrant sha e a t p d s st =
      writeAudit sha e a
        { type := .REVOKE, actorWebId := p, patientWebId := p, doctorWebId := d,
          scopeUrl := s, grantId := some gs.grantId,
          ackUrl := some gs.activeGrantUrl,
          termsVersion := some gs.termsVersion, termsHash := some gs.termsHash }
        { st with
            states := updFn st.states (stateUrlForKey (makeKey sha p d s))
              { gs with status := .revoked, updatedAt := t } } := by
  simp only [revokeActiveGrant]
  rw [h]

theorem revoke_acks_of_some (sha : String → String) (e a t p d s : String)
    (st : Store) (gs : GrantState)
    (h : st.states (stateUrlForKey (makeKey sha p d s)) = some gs) :
    (revokeActiveGrant sha e a t p d s st).acks = st.acks := by
  rw [revoke_eq_of_some sha e a t p d s st gs h, writeAudit_acks]

theorem doctorGate_pass_of (sha : String → String) (d p s : String)
    (st : Store) (g : GrantState) (a : Ack)
    (hg : getActiveGrantState sha p d s st = some g)
    (hstatus : g.status = GrantStatus.active)
    (hurl : g.activeGrantUrl ≠ "")
    (ha : st.acks g.activeGrantUrl = some a)
    (hby : a.acknowledgedBy = d) :
    doctorGateOrThrow sha d p s st = .pass := by
  simp only [doctorGateOrThrow]
  rw [hg]
  simp only [ackFetch]
  simp only [ha]
  simp [hstatus, hurl, hasDoctorAcknowledged, respOk, hby]

theorem doctorGate_noActive_of_revoked (sha : String → String) (d p s : String)
    (st : Store) (g : GrantState)
    (hg : getActiveGrantState sha p d s st = some g)
    (hstatus : g.status = GrantStatus.revoked) :
    doctorGateOrThrow sha d p s st = .noActiveGrant := by
  simp only [doctorGateOrThrow]
  rw [hg]
  simp [hstatus]

theorem doctorGate_legalNotice_of (sha : String → String) (d p s : String)
    (st : Store) (g : GrantState)
    (hg : getActiveGrantState sha p d s st = some g)
    (hstatus : g.status = GrantStatus.active)
    (hurl : g.activeGrantUrl ≠ "")
    (ha : st.acks g.activeGrantUrl = none) :
    doctorGateOrThrow sha d p s st = .legalNoticeRequired := by
  simp only [doctorGateOrThrow]
  rw [hg]
  simp only [ackFetch]
  simp only [ha]
  simp [hstatus, hurl, hasDoctorAcknowledged]

/-- **C1.** The grant/acknowledge/revoke cycle, for every (patient, doctor,
scope) triple and every starting store: after `createGrantAndActivate`,
`getActiveGrantState` returns a state with status active and the grant id
returned by the create call; after `acknowledgeGrant` with that state's
recorded acknowledgement location, terms version and terms hash, the doctor
gate passes; after `revokeActiveGrant` for the same triple, the gate fails
with `NoActiveGrant`. -/
theorem c1_grant_ack_revoke_cycle (sha : String → String)
    (g1 e1 t1 a1 e2 a2 ackAt e3 a3 t3 : String)
    (p d s : String) (st0 : Store) :
    ∃ gs : GrantState,
      getActiveGrantState sha p d s
          (createGrantAndActivate sha g1 e1 t1 a1 p d s st0).1 = some gs ∧
      gs.status = .active ∧
      gs.grantId = (createGrantAndActivate sha g1 e1 t1 a1 p d s st0).2.1 ∧
      doctorGateOrThrow sha d p s
          (acknowledgeGrant sha e2 a2 ackAt gs.activeGrantUrl d p s
            gs.termsVersion gs.termsHash
            (createGrantAndActivate sha g1 e1 t1 a1 p d s st0).1) = .pass ∧
      doctorGateOrThrow sha d p s
          (revokeActiveGrant sha e3 a3 t3 p d s
            (acknowledgeGrant sha e2 a2 ackAt gs.activeGrantUrl d p s
              gs.termsVersion gs.termsHash
              (createGrantAndActivate sha g1 e1 t1 a1 p d s st0).1)) =
        .noActiveGrant := by
  have hget1 : getActiveGrantState sha p d s
      (createGrantAndActivate sha g1 e1 t1 a1 p d s st0).1 =
      some (createdGrantState sha g1 t1 p d s) := by
    rw [getActive_eq]
    exact create_states_lookup sha g1 e1 t1 a1 p d s st0
  have hget2 : getActiveGrantState sha p d s
      (acknowledgeGrant sha e2 a2 ackAt
        (createdGrantState sha g1 t1 p d s).activeGrantUrl d p s
        (createdGrantState sha g1 t1 p d s).termsVersion
        (createdGrantState sha g1 t1 p d s).termsHash
        (createGrantAndActivate sha g1 e1 t1 a1 p d s st0).1) =
      some (createdGrantState sha g1 t1 p d s) := by
    rw [getActive_eq, ack_states]
    exact create_states_lookup sha g1 e1 t1 a1 p d s st0
  refine ⟨createdGrantState sha g1 t1 p d s, hget1, rfl, rfl, ?_, ?_⟩
  · exact doctorGate_pass_of sha d p s _ _
      ⟨d, ackAt, (createdGrantState sha g1 t1 p d s).termsVersion,
        (createdGrantState sha g1 t1 p d s).termsHash⟩
      hget2 rfl (ackUrlFor_ne_empty _ _)
      (ack_acks_lookup sha e2 a2 ackAt _ d p s _ _ _) rfl
  · have hstates2 :
        (acknowledgeGrant sha e2 a2 ackAt
          (createdGrantState sha g1 t1 p d s).activeGrantUrl d p s
          (createdGrantState sha g1 t1 p d s).termsVersion
          (createdGrantState sha g1 t1 p d s).termsHash
          (createGrantAndActivate sha g1 e1 t1 a1 p d s st0).1).states
          (stateUrlForKey (makeKey sha p d s)) =
        some (createdGrantState sha g1 t1 p d s) := by
      rw [ack_states]
      exact create_states_lookup sha g1 e1 t1 a1 p d s st0
    refine doctorGate_noActive_of_revoked sha d p s _
      { createdGrantState sha g1 t1 p d s with
          status := .revoked, updatedAt := t3 } ?_ rfl
    rw [getActive_eq, revoke_eq_of_some sha e3 a3 t3 p d s _ _ hstates2,
      writeAudit_states]
    with_reducible exact updFn_same _ _ _

/-- **C2.** After a grant G1 has been acknowledged and then revoked, a second
`createGrantAndActivate` for the same (patient, doctor, scope) triple yields
a state whose grant id is the fresh G2 ≠ G1 and whose acknowledgement
location differs from G1's, so the doctor gate raises `LegalNoticeRequired`
even though the doctor acknowledged G1.  The hypotheses record the
environmental freshness of the G2 uuid draw: it differs from G1 and no
acknowledgement resource already sits at the new location. -/
theorem c2_regrant_requires_fresh_ack (sha : String → String)
    (g1 g2 : String) (hfresh_id : g2 ≠ g1)
    (e1 t1 a1 e2 a2 ackAt tv th e3 a3 t3 e4 t4 a4 : String)
    (p d s : String) (st0 : Store)
    (hfresh_loc : st0.acks (ackUrlFor (makeKey sha p d s) g2) = none) :
    ∃ gs2 : GrantState,
      getActiveGrantState sha p d s
          (createGrantAndActivate sha g2 e4 t4 a4 p d s
            (revokeActiveGrant sha e3 a3 t3 p d s
              (acknowledgeGrant sha e2 a2 ackAt
                (createGrantAndActivate sha g1 e1 t1 a1 p d s st0).2.2 d p s tv th
                (createGrantAndActivate sha g1 e1 t1 a1 p d s st0).1))).1 =
        some gs2 ∧
      gs2.grantId = g2 ∧
      gs2.grantId ≠ g1 ∧
      gs2.activeGrantUrl ≠ (createGrantAndActivate sha g1 e1 t1 a1 p d s st0).2.2 ∧
      doctorGateOrThrow sha d p s
          (createGrantAndActivate sha g2 e4 t4 a4 p d s
            (revokeActiveGrant sha e3 a3 t3 p d s
              (acknowledgeGrant sha e2 a2 ackAt
                (createGrantAndActivate sha g1 e1 t1 a1 p d s st0).2.2 d p s tv th
                (createGrantAndActivate sha g1 e1 t1 a1 p d s st0).1))).1 =
        .legalNoticeRequired := by
  have hne : ackUrlFor (makeKey sha p d s) g2 ≠
      (createGrantAndActivate sha g1 e1 t1 a1 p d s st0).2.2 := by
    rw [create_grantUrl]
    intro h
    exact hfresh_id (ackUrlFor_inj_grantId h)
  have hneProj : (createdGrantState sha g2 t4 p d s).activeGrantUrl ≠
      (createGrantAndActivate sha g1 e1 t1 a1 p d s st0).2.2 := by
    rw [createdGrantState_activeGrantUrl]
    exact hne
  have hget4 : getActiveGrantState sha p d s
      (createGrantAndActivate sha g2 e4 t4 a4 p d s
        (revokeActiveGrant sha e3 a3 t3 p d s
          (acknowledgeGrant sha e2 a2 ackAt
            (createGrantAndActivate sha g1 e1 t1 a1 p d s st0).2.2 d p s tv th
            (createGrantAndActivate sha g1 e1 t1 a1 p d s st0).1))).1 =
      some (createdGrantState sha g2 t4 p d s) := by
    rw [getActive_eq]
    exact create_states_lookup sha g2 e4 t4 a4 p d s _
  have hstates2 :
      (acknowledgeGrant sha e2 a2 ackAt
        (createGrantAndActivate sha g1 e1 t1 a1 p d s st0).2.2 d p s tv th
        (createGrantAndActivate sha g1 e1 t1 a1 p d s st0).1).states
        (stateUrlForKey (makeKey sha p d s)) =
      some (createdGrantState sha g1 t1 p d s) := by
    rw [ack_states]
    exact create_states_lookup sha g1 e1 t1 a1 p d s st0
  have hacks4 :
      (createGrantAndActivate sha g2 e4 t4 a4 p d s
        (revokeActiveGrant sha e3 a3 t3 p d s
          (acknowledgeGrant sha e2 a2 ackAt
            (createGrantAndActivate sha g1 e1 t1 a1 p d s st0).2.2 d p s tv th
            (createGrantAndActivate sha g1 e1 t1 a1 p d s st0).1))).1.acks
        (createdGrantState sha g2 t4 p d s).activeGrantUrl = none := by
    rw [create_acks, revoke_acks_of_some sha e3 a3 t3 p d s _ _ hstates2,
      ack_acks_other sha e2 a2 ackAt _ d p s tv th _ _ hneProj, create_acks,
      createdGrantState_activeGrantUrl]
    exact hfresh_loc
  refine ⟨createdGrantState sha g2 t4 p d s, hget4, rfl, hfresh_id, hneProj, ?_⟩
  exact doctorGate_legalNotice_of sha d p s _ _ hget4 rfl
    (ackUrlFor_ne_empty _ _) hacks4

/-- Witness for C2: a concrete run of the cycle with the identity digest,
distinct uuids and the empty starting store ends with the gate demanding a
fresh acknowledgement. -/
theorem c2_regrant_requires_fresh_ack_witness :
    ∃ gs2 : GrantState,
      getActiveGrantState (fun x => x) "p" "d" "s"
          (createGrantAndActivate (fun x => x) "g2" "e4" "t4" "a4" "p" "d" "s"
            (revokeActiveGrant (fun x => x) "e3" "a3" "t3" "p" "d" "s"
              (acknowledgeGrant (fun x => x) "e2" "a2" "ackAt"
                (createGrantAndActivate (fun x => x) "g1" "e1" "t1" "a1" "p" "d" "s" emptyStore).2.2
                "d" "p" "s" "v1.0" "th"
                (createGrantAndActivate (fun x => x) "g1" "e1" "t1" "a1" "p" "d" "s" emptyStore).1))).1 =
        some gs2 ∧
      gs2.grantId = "g2" ∧
      gs2.grantId ≠ "g1" ∧
      gs2.activeGrantUrl ≠
        (createGrantAndActivate (fun x => x) "g1" "e1" "t1" "a1" "p" "d" "s" emptyStore).2.2 ∧
      doctorGateOrThrow (fun x => x) "d" "p" "s"
          (createGrantAndActivate (fun x => x) "g2" "e4" "t4" "a4" "p" "d" "s"
            (revokeActiveGrant (fun x => x) "e3" "a3" "t3" "p" "d" "s"
              (acknowledgeGrant (fun x => x) "e2" "a2" "ackAt"
                (createGrantAndActivate (fun x => x) "g1" "e1" "t1" "a1" "p" "d" "s" emptyStore).2.2
                "d" "p" "s" "v1.0" "th"
                (createGrantAndActivate (fun x => x) "g1" "e1" "t1" "a1" "p" "d" "s" emptyStore).1))).1 =
        .legalNoticeRequired :=
  c2_regrant_requires_fresh_ack (fun x => x) "g1" "g2" (by decide)
    "e1" "t1" "a1" "e2" "a2" "ackAt" "v1.0" "th" "e3" "a3" "t3" "e4" "t4" "a4"
    "p" "d" "s" emptyStore rfl

/-- Witness for C6: revoking a triple with no state record leaves the store
unchanged, and revoking the recorded triple rewrites exactly the status and
timestamp of the stored state. -/
theorem c6_revoke_frame_witness :
    revokeActiveGrant (fun s => s) "ev" "ta" "t1" "p2" "d2" "s2" storeWithState =
      storeWithState ∧
    (revokeActiveGrant (fun s => s) "ev" "ta" "t1" "p" "d" "s" storeWithState).states
        (stateUrlForKey (makeKey (fun s => s) "p" "d" "s")) =
      some { gsExample with status := .revoked, updatedAt := "t1" } := by
  have h1 := (c6_revoke_frame (fun s => s) "ev" "ta" "t1" "p2" "d2" "s2" storeWithState).1
  have h2 := (c6_revoke_frame (fun s => s) "ev" "ta" "t1" "p" "d" "s" storeWithState).2
  refine ⟨h1 ?_, (h2 gsExample ?_).1⟩
  · decide
  · decide

/-! ## Theorems for claim C5 (revocation polling) -/

/-- **C5** (claim refuted by the code).  The inline revocation-polling
effect of App.tsx starts the poller — and issues an immediate grant-state
check — for a logged-in doctor with a selected patient even though no
patient data has been loaded yet (`dataLoadedOnce = false`); only the
extracted hook `useDoctorRevocationPolling` gates on `hasActiveData`, and
with that argument absent (the caller does not pass it, so it is falsy) the
hook-based poller never starts at all. -/
theorem c5_app_polls_before_first_load :
    appRevocationPollerStarts
        ⟨true, .doctor, some "https://pod.x/alice/card",
          some "https://pod.x/alice/health/", false⟩ = true ∧
    (⟨true, .doctor, some "https://pod.x/alice/card",
        some "https://pod.x/alice/health/", false⟩ :
        DoctorPollContext).dataLoadedOnce = false ∧
    hookRevocationPollerStarts
        ⟨true, .doctor, some "https://pod.x/alice/card",
          some "https://pod.x/alice/health/", false⟩ false = false := by
  exact ⟨rfl, rfl, rfl⟩

/-! ## Theorems for claim C9 (bootstrap idempotence) -/

theorem ensure_present (st : Store) (u : String) (h : st.containers u = true) :
    ensureContainer st u = st := by
  simp [ensureContainer, h]

theorem ensure_containers_self (st : Store) (u : String) :
    (ensureContainer st u).containers u = true := by
  by_cases h : st.containers u <;> simp [ensureContainer, h]

theorem ensure_containers_mono (st : Store) (u v : String)
    (h : st.containers v = true) :
    (ensureContainer st u).containers v = true := by
  by_cases h' : st.containers u
  · simp [ensureContainer, h', h]
  · by_cases hv : v = u <;> simp [ensureContainer, h', hv, h]

theorem ensure_states (st : Store) (u : String) :
    (ensureContainer st u).states = st.states := by
  by_cases h : st.containers u <;> simp [ensureContainer, h]

theorem ensure_acks (st : Store) (u : String) :
    (ensureContainer st u).acks = st.acks := by
  by_cases h : st.containers u <;> simp [ensureContainer, h]

theorem ensure_auditEvents (st : Store) (u : String) :
    (ensureContainer st u).auditEvents = st.auditEvents := by
  by_cases h : st.containers u <;> simp [ensureContainer, h]

theorem ensure_texts (st : Store) (u : String) :
    (ensureContainer st u).texts = st.texts := by
  by_cases h : st.containers u <;> simp [ensureContainer, h]

theorem putText_containers (st : Store) (url text : String) :
    (putText st url text).containers = st.containers := rfl

theorem putText_states (st : Store) (url text : String) :
    (putText st url text).states = st.states := rfl

theorem putText_acks (st : Store) (url text : String) :
    (putText st url text).acks = st.acks := rfl

theorem putText_auditEvents (st : Store) (url text : String) :
    (putText st url text).auditEvents = st.auditEvents := rfl

theorem putText_texts (st : Store) (url text : String) :
    (putText st url text).texts = updFn st.texts url text := rfl

theorem putAcr_containers (st : Store) (r v : String) :
    (putAcr st r v).containers = st.containers := rfl

theorem putAcr_states (st : Store) (r v : String) :
    (putAcr st r v).states = st.states := rfl

theorem putAcr_acks (st : Store) (r v : String) :
    (putAcr st r v).acks = st.acks := rfl

theorem putAcr_auditEvents (st : Store) (r v : String) :
    (putAcr st r v).auditEvents = st.auditEvents := rfl

theorem putAcr_texts (st : Store) (r v : String) :
    (putAcr st r v).texts = updFn st.texts (r ++ ".acr") v := rfl

theorem writeAudit_containers (sha : String → String) (e a : String)
    (ev : AuditInput) (st : Store) :
    (writeAudit sha e a ev st).containers = st.containers := rfl

theorem writeAudit_texts (sha : String → String) (e a : String)
    (ev : AuditInput) (st : Store) :
    (writeAudit sha e a ev st).texts = st.texts := rfl

theorem bootstrap_states (sha : String → String) (e a : String) (st : Store) :
    (bootstrapGovernanceStore sha e a st).states = st.states := by
  simp only [bootstrapGovernanceStore, writeAudit_states, putAcr_states,
    putText_states, ensure_states]

theorem bootstrap_acks (sha : String → String) (e a : String) (st : Store) :
    (bootstrapGovernanceStore sha e a st).acks = st.acks := by
  simp only [bootstrapGovernanceStore, writeAudit_acks, putAcr_acks,
    putText_acks, ensure_acks]

theorem bootstrap_containers (sha : String → String) (e a : String) (st : Store) :
    (bootstrapGovernanceStore sha e a st).containers =
      (ensureContainer (ensureContainer (ensureContainer (ensureContainer
        (ensureContainer (ensureContainer st GOV.noticesContainer)
          GOV.grantsContainer) GOV.grantsStateContainer)
          GOV.grantsAcksContainer) GOV.auditContainer)
          GOV.auditEventsContainer).containers := by
  simp only [bootstrapGovernanceStore, writeAudit_containers,
    putAcr_containers, putText_containers]

theorem bootstrap_texts (sha : String → String) (e a : String) (st : Store) :
    (bootstrapGovernanceStore sha e a st).texts =
      updFn (updFn (updFn (updFn (updFn (updFn st.texts
        GOV.termsUrl TERMS_TEXT)
        (GOV.noticesContainer ++ ".acr")
        (buildContainerAcr GOV.noticesContainer GOVERNANCE_WEBID
          (DOCTOR_WEBID :: PATIENT_WEBIDS) []))
        (GOV.termsUrl ++ ".acr")
        (buildResourceAcr GOV.termsUrl GOVERNANCE_WEBID
          (DOCTOR_WEBID :: PATIENT_WEBIDS)))
        (GOV.grantsStateContainer ++ ".acr")
        (buildContainerAcr GOV.grantsStateContainer GOVERNANCE_WEBID
          (DOCTOR_WEBID :: PATIENT_WEBIDS) PATIENT_WEBIDS))
        (GOV.grantsAcksContainer ++ ".acr")
        (buildContainerAcr GOV.grantsAcksContainer GOVERNANCE_WEBID
          (DOCTOR_WEBID :: PATIENT_WEBIDS) [DOCTOR_WEBID]))
        (GOV.auditEventsContainer ++ ".acr")
        (buildContainerAcr GOV.auditEventsContainer GOVERNANCE_WEBID []
          (DOCTOR_WEBID :: PATIENT_WEBIDS)) := by
  simp only [bootstrapGovernanceStore, writeAudit_texts, putAcr_texts,
    putText_texts, ensure_texts]

theorem writeAudit_auditEvents_ne (sha : String → String) (e a : String)
    (ev : AuditInput) (st : Store) (u : String)
    (h : u ≠ GOV.auditEventsContainer ++ e ++ ".json") :
    (writeAudit sha e a ev st).auditEvents u = st.auditEvents u := by
  simp only [writeAudit]
  exact updFn_ne _ _ _ _ h

theorem writeAudit_lookup (sha : String → String) (e a : String)
    (ev : AuditInput) (st : Store) :
    ∃ evFull : AuditEvent,
      (writeAudit sha e a ev st).auditEvents
        (GOV.auditEventsContainer ++ e ++ ".json") = some evFull := by
  simp only [writeAudit]
  exact ⟨_, updFn_same _ _ _⟩

/-- **C9 counterexample.**  The claim "running bootstrap a second time
produces the same container and document set as the first run" is false as
stated: the second run appends one more audit-event document under a fresh
uuid, so the document set after the second run strictly contains the first
run's.  Concretely, with event uuids "e1" and "e2": the audit-event document
for "e2" is absent after the first run and present after the second. -/
theorem c9_bootstrap_rerun_counterexample :
    (bootstrapGovernanceStore (fun x => x) "e1" "a1" emptyStore).auditEvents
        (GOV.auditEventsContainer ++ "e2" ++ ".json") = none ∧
    (∃ ev : AuditEvent,
      (bootstrapGovernanceStore (fun x => x) "e2" "a2"
          (bootstrapGovernanceStore (fun x => x) "e1" "a1" emptyStore)).auditEvents
          (GOV.auditEventsContainer ++ "e2" ++ ".json") = some ev) := by
  constructor
  · simp only [bootstrapGovernanceStore]
    rw [writeAudit_auditEvents_ne (fun x => x) "e1" "a1" _ _
      (GOV.auditEventsContainer ++ "e2" ++ ".json") (by decide)]
    simp only [putAcr_auditEvents, putText_auditEvents, ensure_auditEvents]
    rfl
  · simp only [bootstrapGovernanceStore]
    exact writeAudit_lookup (fun x => x) "e2" "a2" _ _

/-- **C9 (amended).**  Re-running bootstrap does not error and reproduces
the same containers, the same terms document at the same fixed location and
the same access-control documents — every container-creation step succeeds
silently when the container already exists (2xx GET, or 412 on the racing
PUT) — but each run additionally appends one fresh bootstrap audit event, so
the audit-event set grows by one document per run. -/
theorem c9_bootstrap_rerun_idempotent (sha : String → String)
    (e1 a1 e2 a2 : String) (st0 : Store) :
    (∀ g p' : Nat, respOk g = true → ensureContainerOutcome g p' = .ok ()) ∧
    ensureContainerOutcome 404 412 = .ok () ∧
    (bootstrapGovernanceStore sha e2 a2
        (bootstrapGovernanceStore sha e1 a1 st0)).containers =
      (bootstrapGovernanceStore sha e1 a1 st0).containers ∧
    (bootstrapGovernanceStore sha e2 a2
        (bootstrapGovernanceStore sha e1 a1 st0)).texts =
      (bootstrapGovernanceStore sha e1 a1 st0).texts ∧
    (bootstrapGovernanceStore sha e2 a2
        (bootstrapGovernanceStore sha e1 a1 st0)).states =
      (bootstrapGovernanceStore sha e1 a1 st0).states ∧
    (bootstrapGovernanceStore sha e2 a2
        (bootstrapGovernanceStore sha e1 a1 st0)).acks =
      (bootstrapGovernanceStore sha e1 a1 st0).acks ∧
    (bootstrapGovernanceStore sha e1 a1 st0).texts GOV.termsUrl =
      some TERMS_TEXT ∧
    (∀ u, u ≠ GOV.auditEventsContainer ++ e2 ++ ".json" →
      (bootstrapGovernanceStore sha e2 a2
          (bootstrapGovernanceStore sha e1 a1 st0)).auditEvents u =
        (bootstrapGovernanceStore sha e1 a1 st0).auditEvents u) ∧
    (∃ ev : AuditEvent,
      (bootstrapGovernanceStore sha e2 a2
          (bootstrapGovernanceStore sha e1 a1 st0)).auditEvents
        (GOV.auditEventsContainer ++ e2 ++ ".json") = some ev) := by
  have hb := bootstrap_containers sha e1 a1 st0
  have hc1 : (bootstrapGovernanceStore sha e1 a1 st0).containers
      GOV.noticesContainer = true := by
    rw [hb]
    exact ensure_containers_mono _ _ _ (ensure_containers_mono _ _ _
      (ensure_containers_mono _ _ _ (ensure_containers_mono _ _ _
        (ensure_containers_mono _ _ _ (ensure_containers_self _ _)))))
  have hc2 : (bootstrapGovernanceStore sha e1 a1 st0).containers
      GOV.grantsContainer = true := by
    rw [hb]
    exact ensure_containers_mono _ _ _ (ensure_containers_mono _ _ _
      (ensure_containers_mono _ _ _ (ensure_containers_mono _ _ _
        (ensure_containers_self _ _))))
  have hc3 : (bootstrapGovernanceStore sha e1 a1 st0).containers
      GOV.grantsStateContainer = true := by
    rw [hb]
    exact ensure_containers_mono _ _ _ (ensure_containers_mono _ _ _
      (ensure_containers_mono _ _ _ (ensure_containers_self _ _)))
  have hc4 : (bootstrapGovernanceStore sha e1 a1 st0).containers
      GOV.grantsAcksContainer = true := by
    rw [hb]
    exact ensure_containers_mono _ _ _ (ensure_containers_mono _ _ _
      (ensure_containers_self _ _))
  have hc5 : (bootstrapGovernanceStore sha e1 a1 st0).containers
      GOV.auditContainer = true := by
    rw [hb]
    exact ensure_containers_mono _ _ _ (ensure_containers_self _ _)
  have hc6 : (bootstrapGovernanceStore sha e1 a1 st0).containers
      GOV.auditEventsContainer = true := by
    rw [hb]
    exact ensure_containers_self _ _
  refine ⟨?_, rfl, ?_, ?_, bootstrap_states sha e2 a2 _,
    bootstrap_acks sha e2 a2 _, ?_, ?_, ?_⟩
  · intro g p' h
    simp [ensureContainerOutcome, h]
  · rw [bootstrap_containers sha e2 a2 _,
      ensure_present _ _ hc1, ensure_present _ _ hc2, ensure_present _ _ hc3,
      ensure_present _ _ hc4, ensure_present _ _ hc5, ensure_present _ _ hc6]
  · rw [bootstrap_texts sha e2 a2 _, bootstrap_texts sha e1 a1 st0]
    funext u
    simp only [updFn]
    split_ifs <;> rfl
  · rw [bootstrap_texts sha e1 a1 st0]
    rw [updFn_ne _ _ _ _ (by decide : GOV.termsUrl ≠ GOV.auditEventsContainer ++ ".acr"),
      updFn_ne _ _ _ _ (by decide : GOV.termsUrl ≠ GOV.grantsAcksContainer ++ ".acr"),
      updFn_ne _ _ _ _ (by decide : GOV.termsUrl ≠ GOV.grantsStateContainer ++ ".acr"),
      updFn_ne _ _ _ _ (by decide : GOV.termsUrl ≠ GOV.termsUrl ++ ".acr"),
      updFn_ne _ _ _ _ (by decide : GOV.termsUrl ≠ GOV.noticesContainer ++ ".acr")]
    exact updFn_same _ _ _
  · intro u hu
    simp only [bootstrapGovernanceStore]
    rw [writeAudit_auditEvents_ne sha e2 a2 _ _ u hu]
    simp only [putAcr_auditEvents, putText_auditEvents, ensure_auditEvents]
  · simp only [bootstrapGovernanceStore]
    exact writeAudit_lookup sha e2 a2 _ _

/-- Witness for C9: the idempotence theorem applied to the identity digest,
concrete uuids and the empty store; an existing container (200 GET) and a
racing creation (404 GET then 412 PUT) both succeed silently, and the terms
document sits at its fixed location after the first run. -/
theorem c9_bootstrap_rerun_idempotent_witness :
    ensureContainerOutcome 200 500 = .ok () ∧
    ensureContainerOutcome 404 412 = .ok () ∧
    (bootstrapGovernanceStore (fun x => x) "e1" "a1" emptyStore).texts
        GOV.termsUrl = some TERMS_TEXT ∧
    (bootstrapGovernanceStore (fun x => x) "e2" "a2"
        (bootstrapGovernanceStore (fun x => x) "e1" "a1" emptyStore)).auditEvents
        (GOV.auditEventsContainer ++ "other" ++ ".json") =
      (bootstrapGovernanceStore (fun x => x) "e1" "a1" emptyStore).auditEvents
        (GOV.auditEventsContainer ++ "other" ++ ".json") := by
  have h := c9_bootstrap_rerun_idempotent (fun x => x) "e1" "a1" "e2" "a2" emptyStore
  exact ⟨h.1 200 500 (by decide), h.2.1, h.2.2.2.2.2.2.1,
    h.2.2.2.2.2.2.2.1 (GOV.auditEventsContainer ++ "other" ++ ".json") (by decide)⟩


/-! ## Theorems for claim C7 (access-control document round-trip) -/

set_option maxRecDepth 10000 in
/-- **C7 counterexample.**  The claimed equivalence "the document contains
the emergency role-block identifier if and only if `emergencyCanRead`" does
not hold for every option set: an option set whose resource URL contains the
identifier yields a document containing it even though the flag is off (the
substring read-back would report the emergency role as granted). -/
theorem c7_roundtrip_counterexample :
    acrCexOpts.emergencyCanRead = false ∧
    containsSubstr (buildAcrTurtle acrCexOpts) "<#emergencyAccessControl>" = true :=
  ⟨rfl, by decide⟩

set_option maxRecDepth 10000 in
set_option maxHeartbeats 4000000 in
/-- **C7 (amended).**  For every combination of the doctor and emergency
flags — with the static role-table identities and the patient health
container URL, none of which contains a role-block identifier, and the
pharmacy/nurse roles not granted — the built document contains the doctor
role-block identifier iff `doctorCanReadWrite` and the emergency role-block
identifier iff `emergencyCanRead`, and the substring read-back of a freshly
built document returns exactly the two flags it was built with. -/
theorem c7_roundtrip (dflag eflag : Bool) :
    containsSubstr (buildAcrTurtle (acrOptsExemplar dflag eflag false false))
        "<#doctorAccessControl>" = dflag ∧
    containsSubstr (buildAcrTurtle (acrOptsExemplar dflag eflag false false))
        "<#emergencyAccessControl>" = eflag ∧
    readAccessForFullRecord (.response
        ⟨200, buildAcrTurtle (acrOptsExemplar dflag eflag false false)⟩) =
      .ok ⟨dflag, eflag⟩ := by
  have h1 : containsSubstr (buildAcrTurtle (acrOptsExemplar dflag eflag false false))
      "<#doctorAccessControl>" = dflag := by
    cases dflag <;> cases eflag <;> decide
  have h2 : containsSubstr (buildAcrTurtle (acrOptsExemplar dflag eflag false false))
      "<#emergencyAccessControl>" = eflag := by
    cases dflag <;> cases eflag <;> decide
  refine ⟨h1, h2, ?_⟩
  simp only [readAccessForFullRecord, respOk]
  rw [h1, h2]
  rfl

end SolidFinal
